import Mathlib

/-!
Shallow embedding of the hydra_auth token/session lifecycle core.

Source files embedded:
- `auth/jwt.go` (src/unnamed/part_001): `SecretKey`, `Claims`, `generateJWT`,
  `generateTokens` — the Token Issuer.
- `auth/handlers.go` (src/unnamed/part_002): `RefreshHandler` — the Renewal
  Protocol.
- `auth/main.go`: `ValidateToken` — the Token Verifier (gRPC).

Modelling conventions:
- The symmetric MAC (HMAC-SHA256 in the source) is modelled symbolically: a
  signature is the constructor `Sig.mac secret claims`, so a signature verifies
  under key `k` over claims `c` iff it is literally `Sig.mac k c` (perfect-MAC
  model; forging requires the secret, and a tag made with a different secret
  never verifies).
- The Redis session store is an association list from keys to
  (value, TTL-in-seconds) pairs. Redis `GET`/`SET`/`DEL` become `storeGet`,
  `storeSet`, `storeDel`. A store-level I/O error on `GET` (the non-`redis.Nil`
  error branch) is injected through a `getOk : Bool` parameter; failure of the
  `SET` in `generateTokens` through `setOk : Bool`.
- `uuid.New().String()` results are passed in as explicit parameters
  (`freshSessionID`, `freshRefreshToken`); uniqueness of fresh UUIDs becomes
  explicit inequality hypotheses where a claim needs it.
- Wall-clock time is an explicit `now : Nat` (Unix seconds).
- Each operation returns, besides its response, the resulting store and the
  trace of store operations it performed, so claims about "no store lookup" or
  "only one write" are statable.
- HTTP/JSON framing (body decode, Authorization header extraction) and the
  user-table handlers are outside the embedded core, per the spec's scope.
-/

namespace HydraAuth

/-- Signing algorithm of a JWT header. `ValidateToken`'s key function accepts
exactly the HMAC family; `other` stands for any non-HMAC algorithm. -/
inductive Alg where
  | HS256
  | other
  deriving DecidableEq

/-- The `Claims` struct of `auth/jwt.go`: `UserID`, `SessionID`, plus the
registered claims set by `generateJWT` (`ExpiresAt`, `IssuedAt`, `Subject`). -/
structure Claims where
  user_id : Int
  session_id : String
  issued_at : Nat
  expires_at : Nat
  subject : String
  deriving DecidableEq

/-- Symbolic MAC tag: `mac secret claims` is the tag produced by signing
`claims` with `secret`; `junk` is any other byte string in the signature
position of the wire format. -/
inductive Sig where
  | mac (secret : String) (claims : Claims)
  | junk (bytes : String)
  deriving DecidableEq

/-- A token string on the wire: either it fails structural JWT parsing
(`malformed`), or it parses to a header algorithm, a claims payload and a
signature. -/
inductive Credential where
  | malformed
  | token (alg : Alg) (claims : Claims) (sig : Sig)
  deriving DecidableEq

/-- One Redis operation, for effect traces. -/
inductive StoreOp where
  | get (key : String)
  | set (key value : String) (ttl : Nat)
  | del (key : String)
  deriving DecidableEq

/-- The session store: key ↦ (value, TTL in seconds). At most one binding per
key is maintained by construction of `storeSet`. -/
abbrev Store := List (String × String × Nat)

/-- Redis `GET`: the value bound to `key`, if any. -/
def storeGet : Store → String → Option String
  | [], _ => none
  | (k, v, _) :: rest, key => if k = key then some v else storeGet rest key

/-- Redis `DEL`: remove every binding of `key`. -/
def storeDel : Store → String → Store
  | [], _ => []
  | (k, v, t) :: rest, key =>
      if k = key then storeDel rest key else (k, v, t) :: storeDel rest key

/-- Redis `SET key value EX ttl`: overwrite the binding of `key`. -/
def storeSet (s : Store) (key value : String) (ttl : Nat) : Store :=
  (key, value, ttl) :: storeDel s key

/-- `fmt.Sprintf("session:%s", sessionID)` — the session-store key. -/
def sessionKey (sessionID : String) : String := "session:" ++ sessionID

/-- Access-token lifetime: 15 minutes (`time.Now().Add(15 * time.Minute)`). -/
def atLifetime : Nat := 15 * 60

/-- Refresh-token TTL: 7 days (`rtExpiration := 7 * 24 * time.Hour`). -/
def rtLifetime : Nat := 7 * 24 * 60 * 60

/-- The claims `generateJWT` builds for `userID`/`sessionID` at time `now`. -/
def mkClaims (userID : Int) (sessionID : String) (now : Nat) : Claims :=
  { user_id := userID
    session_id := sessionID
    issued_at := now
    expires_at := now + atLifetime
    subject := "access_token" }

/-- `generateJWT` of `auth/jwt.go`: build the claims and sign them with
`SigningMethodHS256` under `secret`. -/
def generateJWT (secret : String) (now : Nat) (userID : Int) (sessionID : String) :
    Credential :=
  .token .HS256 (mkClaims userID sessionID now) (.mac secret (mkClaims userID sessionID now))

/-- `TokensResponse` of `auth/jwt.go`. -/
structure TokensResponse where
  accessToken : Credential
  refreshToken : String
  deriving DecidableEq

/-- Outcome of `generateTokens`: the pair, or the error returned when the
Redis `SET` fails (`failed to save refresh token to redis`). -/
inductive IssueResult where
  | ok (tokens : TokensResponse)
  | storeUnavailable
  deriving DecidableEq

/-- Result of `generateTokens`, with the resulting store and the operations
attempted on it. -/
structure IssueOut where
  result : IssueResult
  store : Store
  ops : List StoreOp
  deriving DecidableEq

/-- `generateTokens` of `auth/jwt.go`: mint the access token for a fresh
session id, draw a fresh refresh token, and store it under
`session:{sessionID}` with the 7-day TTL. `setOk = false` injects a Redis
error on the `SET`, in which case the function returns only the error. -/
def generateTokens (secret : String) (now : Nat)
    (freshSessionID freshRefreshToken : String) (setOk : Bool)
    (store : Store) (userID : Int) : IssueOut :=
  if setOk then
    { result := .ok
        { accessToken := generateJWT secret now userID freshSessionID
          refreshToken := freshRefreshToken }
      store := storeSet store (sessionKey freshSessionID) freshRefreshToken rtLifetime
      ops := [.set (sessionKey freshSessionID) freshRefreshToken rtLifetime] }
  else
    { result := .storeUnavailable
      store := store
      ops := [.set (sessionKey freshSessionID) freshRefreshToken rtLifetime] }

/-- `jwt.ParseWithClaims` with `ValidateToken`'s key function: reject a
non-HMAC header algorithm, verify the signature under `secret`, then validate
the claims (the v5 validator rejects a token whose `exp` is not strictly in
the future). Returns the claims exactly when `err == nil && token.Valid`. -/
def parseWithClaims (secret : String) (now : Nat) : Credential → Option Claims
  | .malformed => none
  | .token alg claims sig =>
      match alg with
      | .other => none
      | .HS256 =>
          if sig = Sig.mac secret claims then
            if now < claims.expires_at then some claims else none
          else none

/-- `jwt.NewParser().ParseUnverified`: structural parse only — no signature
check, no claims validation (used by `RefreshHandler` on the possibly expired
access token). -/
def parseUnverified : Credential → Option Claims
  | .malformed => none
  | .token _ claims _ => some claims

/-- The three failure messages of `ValidateToken`, as distinct reasons:
`invalidOrExpired` ↔ "Token is invalid or expired: …",
`sessionRevokedOrInactive` ↔ "Session revoked or not active …",
`internalError` ↔ "Internal server error during session check.". -/
inductive VerifyReason where
  | ok
  | invalidOrExpired
  | sessionRevokedOrInactive
  | internalError
  deriving DecidableEq

/-- Go's narrowing conversion `int32(x)`: wrap modulo `2 ^ 32` into
`[-2 ^ 31, 2 ^ 31)`. `ValidateToken` applies it to the verified claims'
user id when building the gRPC response (`UserId: int32(claims.UserID)`). -/
def toInt32 (x : Int) : Int :=
  (x + 2 ^ 31) % 2 ^ 32 - 2 ^ 31

/-- `ValidateTokenResponse` plus the resulting store and store-op trace. -/
structure VerifyOut where
  isValid : Bool
  userId : Int
  reason : VerifyReason
  store : Store
  ops : List StoreOp
  deriving DecidableEq

/-- `ValidateToken` of `auth/main.go`: stateless phase (`ParseWithClaims`
with HMAC-only key function), then stateful phase (Redis `GET` on
`session:{SessionID}`; `redis.Nil` ⇒ revoked, any other error ⇒ internal
error, injected by `getOk = false`). -/
def ValidateToken (secret : String) (now : Nat) (getOk : Bool)
    (store : Store) (tokenString : Credential) : VerifyOut :=
  match parseWithClaims secret now tokenString with
  | none =>
      { isValid := false, userId := 0, reason := .invalidOrExpired
        store := store, ops := [] }
  | some claims =>
      if getOk then
        match storeGet store (sessionKey claims.session_id) with
        | none =>
            { isValid := false, userId := 0, reason := .sessionRevokedOrInactive
              store := store, ops := [.get (sessionKey claims.session_id)] }
        | some _ =>
            { isValid := true, userId := toInt32 claims.user_id, reason := .ok
              store := store, ops := [.get (sessionKey claims.session_id)] }
      else
        { isValid := false, userId := 0, reason := .internalError
          store := store, ops := [.get (sessionKey claims.session_id)] }

/-- The distinct HTTP failure responses of `RefreshHandler`, plus success:
`invalidTokenStructure` ↔ 401 "Invalid Access Token structure",
`missingSessionClaim` ↔ 401 "Token missing session ID claim",
`sessionInactive` ↔ 401 "Session expired or revoked",
`internalError` ↔ 500 "Server error checking session",
`renewalMismatch` ↔ 401 "Invalid refresh token",
`issueFailed` ↔ 500 "Failed to generate new tokens". -/
inductive RenewResult where
  | invalidTokenStructure
  | missingSessionClaim
  | sessionInactive
  | internalError
  | renewalMismatch
  | issueFailed
  | success (tokens : TokensResponse)
  deriving DecidableEq

/-- The spec's `MalformedCredential` class: the two 401 responses issued
before any store access. -/
def RenewResult.isMalformedCredential : RenewResult → Bool
  | .invalidTokenStructure => true
  | .missingSessionClaim => true
  | _ => false

/-- Whether a renewal returned a fresh token pair. -/
def RenewResult.isSuccess : RenewResult → Bool
  | .success _ => true
  | _ => false

/-- Result of `RefreshHandler`, with the resulting store and store-op trace. -/
structure RenewOut where
  result : RenewResult
  store : Store
  ops : List StoreOp
  deriving DecidableEq

/-- `RefreshHandler` of `auth/handlers.go`, from the point where the access
token string and the submitted refresh token have been extracted from the
request: `ParseUnverified` the access token, reject an empty session id; Redis
`GET` on `session:{SessionID}` (`redis.Nil` ⇒ 401 session expired, other
error ⇒ 500, injected by `getOk = false`); on refresh-token mismatch `DEL`
the session and return 401; on match `DEL` the old entry then call
`generateTokens` with the user id taken from the unverified claims. -/
def RefreshHandler (secret : String) (now : Nat) (getOk setOk : Bool)
    (freshSessionID freshRefreshToken : String)
    (store : Store) (tokenString : Credential) (submittedRT : String) : RenewOut :=
  match parseUnverified tokenString with
  | none => { result := .invalidTokenStructure, store := store, ops := [] }
  | some claims =>
      if claims.session_id = "" then
        { result := .missingSessionClaim, store := store, ops := [] }
      else
        if getOk then
          match storeGet store (sessionKey claims.session_id) with
          | none =>
              { result := .sessionInactive, store := store
                ops := [.get (sessionKey claims.session_id)] }
          | some storedRT =>
              if storedRT ≠ submittedRT then
                { result := .renewalMismatch
                  store := storeDel store (sessionKey claims.session_id)
                  ops := [.get (sessionKey claims.session_id),
                          .del (sessionKey claims.session_id)] }
              else
                { result :=
                    match (generateTokens secret now freshSessionID
                        freshRefreshToken setOk
                        (storeDel store (sessionKey claims.session_id))
                        claims.user_id).result with
                    | .ok toks => .success toks
                    | .storeUnavailable => .issueFailed
                  store := (generateTokens secret now freshSessionID
                    freshRefreshToken setOk
                    (storeDel store (sessionKey claims.session_id))
                    claims.user_id).store
                  ops := [.get (sessionKey claims.session_id),
                          .del (sessionKey claims.session_id)] ++
                    (generateTokens secret now freshSessionID freshRefreshToken
                      setOk (storeDel store (sessionKey claims.session_id))
                      claims.user_id).ops }
        else
          { result := .internalError, store := store
            ops := [.get (sessionKey claims.session_id)] }

/-! ### Store lemmas -/

theorem storeGet_storeDel_self (s : Store) (k : String) :
    storeGet (storeDel s k) k = none := by
  induction s with
  | nil => rfl
  | cons e rest ih =>
      obtain ⟨ek, ev, et⟩ := e
      by_cases h : ek = k <;> simp [storeDel, storeGet, h, ih]

theorem storeGet_storeDel_other (s : Store) (k k' : String) (h : k' ≠ k) :
    storeGet (storeDel s k) k' = storeGet s k' := by
  have hkk : k ≠ k' := fun hc => h hc.symm
  induction s with
  | nil => rfl
  | cons e rest ih =>
      obtain ⟨ek, ev, et⟩ := e
      by_cases h1 : ek = k
      · subst h1
        simp [storeDel, storeGet, hkk, ih]
      · by_cases h2 : ek = k'
        · subst h2
          simp [storeDel, storeGet, h1, ih]
        · simp [storeDel, storeGet, h1, h2, ih]

theorem storeGet_storeDel_none (s : Store) (k k' : String)
    (h : storeGet s k' = none) : storeGet (storeDel s k) k' = none := by
  by_cases hk : k' = k
  · subst hk
    exact storeGet_storeDel_self s k'
  · rw [storeGet_storeDel_other s k k' hk]
    exact h

theorem storeGet_storeSet_self (s : Store) (k v : String) (t : Nat) :
    storeGet (storeSet s k v t) k = some v := by
  simp [storeSet, storeGet]

theorem storeGet_storeSet_other (s : Store) (k v : String) (t : Nat)
    (k' : String) (h : k' ≠ k) :
    storeGet (storeSet s k v t) k' = storeGet s k' := by
  have h1 : k ≠ k' := fun hc => h hc.symm
  simp [storeSet, storeGet, h1, storeGet_storeDel_other s k k' h]

theorem sessionKey_inj {a b : String} (h : sessionKey a = sessionKey b) :
    a = b := by
  have hd : ("session:" ++ a).data = ("session:" ++ b).data := by
    unfold sessionKey at h
    rw [h]
  rw [String.data_append, String.data_append] at hd
  have hab : a.data = b.data := List.append_cancel_left hd
  exact congrArg String.mk hab

/-! ### Helper lemmas about the operations -/

/-- `ValidateToken` returns the store it was given, in every branch. -/
theorem ValidateToken_store_invariant (secret : String) (now : Nat)
    (getOk : Bool) (store : Store) (cred : Credential) :
    (ValidateToken secret now getOk store cred).store = store := by
  unfold ValidateToken
  split
  · rfl
  · split
    · split <;> rfl
    · rfl

/-- Every store operation `ValidateToken` performs is a `GET`. -/
theorem ValidateToken_ops_are_reads (secret : String) (now : Nat)
    (getOk : Bool) (store : Store) (cred : Credential) :
    ∀ op ∈ (ValidateToken secret now getOk store cred).ops,
      ∃ k, op = StoreOp.get k := by
  unfold ValidateToken
  split
  · simp
  · split
    · split <;> simp
    · simp

/-- Sample concrete values used by the witness theorems. -/
def sampleClaims : Claims :=
  { user_id := 7, session_id := "s1", issued_at := 0,
    expires_at := 900, subject := "access_token" }

/-- A token correctly signed over `sampleClaims` with secret `"k"`. -/
def sampleToken : Credential := .token .HS256 sampleClaims (.mac "k" sampleClaims)

/-- A store holding the session of `sampleClaims` with refresh token `"rt1"`. -/
def sampleStore : Store := [(sessionKey "s1", "rt1", rtLifetime)]

/-! ### Claim theorems -/

/-- C4: `issue(user_id)` (`generateTokens` with a successful store write)
returns the access credential whose claims are exactly
`{owner_user_id := user_id, session_id := the fresh session id,
issued_at := now, expires_at := now + 15 minutes, subject := "access_token"}`,
signed with the symmetric MAC under the provider's secret, together with the
fresh renewal credential; its store effect is exactly one `SET` of the fresh
renewal credential under `session:` ++ session id with TTL = 7 days. -/
theorem c4_issue_claims_and_single_store_write (secret : String) (now : Nat)
    (sid rt : String) (store : Store) (uid : Int) :
    generateTokens secret now sid rt true store uid =
      { result := .ok
          { accessToken := Credential.token .HS256
              { user_id := uid, session_id := sid, issued_at := now,
                expires_at := now + 15 * 60, subject := "access_token" }
              (.mac secret
                { user_id := uid, session_id := sid, issued_at := now,
                  expires_at := now + 15 * 60, subject := "access_token" })
            refreshToken := rt }
        store := storeSet store (sessionKey sid) rt (7 * 24 * 60 * 60)
        ops := [.set (sessionKey sid) rt (7 * 24 * 60 * 60)] } := rfl

/-- C7: when the Session Store write fails, `issue` returns only
`StoreUnavailable`: no access credential and no renewal credential reach the
caller, and the store is unchanged (no partial state). -/
theorem c7_store_failure_no_partial_state (secret : String) (now : Nat)
    (sid rt : String) (store : Store) (uid : Int) :
    generateTokens secret now sid rt false store uid =
      { result := .storeUnavailable
        store := store
        ops := [.set (sessionKey sid) rt (7 * 24 * 60 * 60)] } := rfl

/-- C9: `verify` never mutates state — for every credential and store state it
returns the store exactly as given, and every store operation it performs is a
read (`GET`). -/
theorem c9_verify_is_pure_read (secret : String) (now : Nat)
    (getOk : Bool) (store : Store) (cred : Credential) :
    (ValidateToken secret now getOk store cred).store = store ∧
    ∀ op ∈ (ValidateToken secret now getOk store cred).ops,
      ∃ k, op = StoreOp.get k :=
  ⟨ValidateToken_store_invariant secret now getOk store cred,
   ValidateToken_ops_are_reads secret now getOk store cred⟩

/-- Witness for C9 at a concrete signed token and non-empty store. -/
theorem c9_verify_is_pure_read_witness :
    (ValidateToken "k" 10 true sampleStore sampleToken).store = sampleStore ∧
    (StoreOp.get (sessionKey "s1") ∈
        (ValidateToken "k" 10 true sampleStore sampleToken).ops ∧
      ∃ k, StoreOp.get (sessionKey "s1") = StoreOp.get k) :=
  ⟨(c9_verify_is_pure_read "k" 10 true sampleStore sampleToken).1,
   by decide,
   (c9_verify_is_pure_read "k" 10 true sampleStore sampleToken).2
     (StoreOp.get (sessionKey "s1")) (by decide)⟩

/-- C1: `verify` is two-phase. Any stateless failure — non-HMAC algorithm,
signature that does not verify under the current secret (including a tag made
with a different secret), or elapsed expiry — makes `parseWithClaims` fail,
and then `ValidateToken` returns invalid with reason `invalidOrExpired` and an
empty store-operation trace (no Session Store lookup). If the stateless phase
passes and the session key is absent, it returns invalid with reason
`sessionRevokedOrInactive`; if the store lookup itself errors, it returns
invalid with reason `internalError`, a reason distinct from the absence one. -/
theorem c1_verify_two_phase (secret : String) (now : Nat) (getOk : Bool)
    (store : Store) (cred : Credential) :
    (parseWithClaims secret now cred = none →
      ValidateToken secret now getOk store cred =
        { isValid := false, userId := 0, reason := .invalidOrExpired
          store := store, ops := [] }) ∧
    (∀ alg claims sig, cred = Credential.token alg claims sig →
      (alg ≠ Alg.HS256 ∨ sig ≠ Sig.mac secret claims ∨ claims.expires_at ≤ now) →
      parseWithClaims secret now cred = none) ∧
    (∀ claims, parseWithClaims secret now cred = some claims →
      getOk = true →
      storeGet store (sessionKey claims.session_id) = none →
      ValidateToken secret now getOk store cred =
        { isValid := false, userId := 0, reason := .sessionRevokedOrInactive
          store := store, ops := [.get (sessionKey claims.session_id)] }) ∧
    (∀ claims, parseWithClaims secret now cred = some claims →
      getOk = false →
      ValidateToken secret now getOk store cred =
        { isValid := false, userId := 0, reason := .internalError
          store := store, ops := [.get (sessionKey claims.session_id)] }) ∧
    VerifyReason.internalError ≠ VerifyReason.sessionRevokedOrInactive := by
  refine ⟨?_, ?_, ?_, ?_, by decide⟩
  · intro h
    unfold ValidateToken
    rw [h]
  · rintro alg claims sig rfl hbad
    cases alg with
    | other => rfl
    | HS256 =>
        rcases hbad with h | h | h
        · exact absurd rfl h
        · simp [parseWithClaims, h]
        · have hlt : ¬ now < claims.expires_at := not_lt.mpr h
          simp [parseWithClaims, hlt]
  · intro claims h hgetOk hnone
    subst hgetOk
    unfold ValidateToken
    rw [h]
    simp [hnone]
  · intro claims h hgetOk
    subst hgetOk
    unfold ValidateToken
    rw [h]
    simp

/-- Witness for C1: a malformed token, a non-HMAC token, a wrong-secret token
and an expired token all fail statelessly with no store operation; a correctly
signed token over an absent session is rejected as revoked; a store error on
lookup is reported as an internal error. -/
theorem c1_verify_two_phase_witness :
    ValidateToken "k" 10 true ([] : Store) .malformed =
      { isValid := false, userId := 0, reason := .invalidOrExpired
        store := [], ops := [] } ∧
    parseWithClaims "k" 10 (.token .other sampleClaims (.mac "k" sampleClaims)) = none ∧
    parseWithClaims "k" 10 (.token .HS256 sampleClaims (.mac "wrong" sampleClaims)) = none ∧
    parseWithClaims "k" 1000 sampleToken = none ∧
    ValidateToken "k" 10 true ([] : Store) sampleToken =
      { isValid := false, userId := 0, reason := .sessionRevokedOrInactive
        store := [], ops := [.get (sessionKey "s1")] } ∧
    ValidateToken "k" 10 false sampleStore sampleToken =
      { isValid := false, userId := 0, reason := .internalError
        store := sampleStore, ops := [.get (sessionKey "s1")] } :=
  ⟨(c1_verify_two_phase "k" 10 true [] .malformed).1 (by decide),
   (c1_verify_two_phase "k" 10 true [] (.token .other sampleClaims (.mac "k" sampleClaims))).2.1
     .other sampleClaims (.mac "k" sampleClaims) rfl (Or.inl (by decide)),
   (c1_verify_two_phase "k" 10 true [] (.token .HS256 sampleClaims (.mac "wrong" sampleClaims))).2.1
     .HS256 sampleClaims (.mac "wrong" sampleClaims) rfl (Or.inr (Or.inl (by decide))),
   (c1_verify_two_phase "k" 1000 true [] sampleToken).2.1
     .HS256 sampleClaims (.mac "k" sampleClaims) rfl (Or.inr (Or.inr (by decide))),
   (c1_verify_two_phase "k" 10 true [] sampleToken).2.2.1
     sampleClaims (by decide) rfl (by decide),
   (c1_verify_two_phase "k" 10 false sampleStore sampleToken).2.2.2.1
     sampleClaims (by decide) rfl⟩

/-- C2: if the access credential parses with a non-empty session id, the
session entry exists, and the submitted renewal credential differs from the
stored one, then `renew` deletes the session entry and fails with
`RenewalMismatch`; any later `renew` against the same session — even one
submitting the formerly correct stored value — fails with `SessionInactive`. -/
theorem c2_mismatch_revokes_session (secret : String) (now now2 : Nat)
    (setOk setOk2 : Bool) (fs fr fs2 fr2 : String)
    (store : Store) (cred : Credential) (claims : Claims)
    (stored submitted later : String)
    (hparse : parseUnverified cred = some claims)
    (hsid : claims.session_id ≠ "")
    (hget : storeGet store (sessionKey claims.session_id) = some stored)
    (hne : stored ≠ submitted) :
    RefreshHandler secret now true setOk fs fr store cred submitted =
      { result := .renewalMismatch
        store := storeDel store (sessionKey claims.session_id)
        ops := [.get (sessionKey claims.session_id),
                .del (sessionKey claims.session_id)] } ∧
    (RefreshHandler secret now2 true setOk2 fs2 fr2
        (storeDel store (sessionKey claims.session_id)) cred later).result =
      .sessionInactive := by
  constructor
  · unfold RefreshHandler
    rw [hparse]
    simp [hsid, hget, hne]
  · unfold RefreshHandler
    rw [hparse]
    simp [hsid, storeGet_storeDel_self]

/-- Witness for C2: session `s1` stores `"rt1"`, the caller submits `"evil"`;
the entry is deleted and the follow-up renewal with the formerly correct
`"rt1"` is rejected as inactive. -/
theorem c2_mismatch_revokes_session_witness :
    RefreshHandler "k" 0 true true "sA" "rA" sampleStore sampleToken "evil" =
      { result := .renewalMismatch
        store := storeDel sampleStore (sessionKey "s1")
        ops := [.get (sessionKey "s1"), .del (sessionKey "s1")] } ∧
    (RefreshHandler "k" 5 true true "sB" "rB"
        (storeDel sampleStore (sessionKey "s1")) sampleToken "rt1").result =
      .sessionInactive := by
  have h := c2_mismatch_revokes_session "k" 0 5 true true "sA" "rA" "sB" "rB"
    sampleStore sampleToken sampleClaims "rt1" "evil" "rt1"
    (by decide) (by decide) (by decide) (by decide)
  exact h

/-- C5 refuted as universally quantified: the verifier narrows the verified
claims' user id through `int32`, so issuing for `user_id = 2 ^ 31` and
verifying immediately validates but reports `-2 ^ 31`, not the user id passed
to issue. -/
theorem c5_round_trip_int32_counterexample :
    (ValidateToken "k" 10 true
        (generateTokens "k" 0 "s1" "rt1" true [] (2 ^ 31)).store
        (generateJWT "k" 0 (2 ^ 31) "s1")).isValid = true ∧
    (ValidateToken "k" 10 true
        (generateTokens "k" 0 "s1" "rt1" true [] (2 ^ 31)).store
        (generateJWT "k" 0 (2 ^ 31) "s1")).userId = -(2 ^ 31) ∧
    (ValidateToken "k" 10 true
        (generateTokens "k" 0 "s1" "rt1" true [] (2 ^ 31)).store
        (generateJWT "k" 0 (2 ^ 31) "s1")).userId ≠ 2 ^ 31 := by
  decide

/-- C5 (amended): round-trip up to the response's `int32` conversion — when
`issue(user_id)` succeeds, verifying the returned access credential against
the resulting store, at any time before the 15-minute expiry and with no
intervening store change, yields `valid = true` with user id
`int32(user_id)`; whenever `user_id` lies within int32 range — as every user
id produced by the relational store does — the reported user id equals the
`user_id` passed to issue exactly. -/
theorem c5_issue_then_verify_round_trip (secret : String) (now now2 : Nat)
    (sid rt : String) (store : Store) (uid : Int) (toks : TokensResponse)
    (hissue : (generateTokens secret now sid rt true store uid).result =
      IssueResult.ok toks)
    (hnow : now2 < now + 15 * 60) :
    (ValidateToken secret now2 true
        (generateTokens secret now sid rt true store uid).store
        toks.accessToken).isValid = true ∧
    (ValidateToken secret now2 true
        (generateTokens secret now sid rt true store uid).store
        toks.accessToken).userId = toInt32 uid ∧
    (-(2 ^ 31) ≤ uid → uid < 2 ^ 31 →
      (ValidateToken secret now2 true
        (generateTokens secret now sid rt true store uid).store
        toks.accessToken).userId = uid) := by
  have hres : (generateTokens secret now sid rt true store uid).result =
      IssueResult.ok
        { accessToken := generateJWT secret now uid sid, refreshToken := rt } := rfl
  rw [hres] at hissue
  injection hissue with htoks
  have hstore : (generateTokens secret now sid rt true store uid).store =
      storeSet store (sessionKey sid) rt rtLifetime := rfl
  have hlt : now2 < (mkClaims uid sid now).expires_at := hnow
  have hp : parseWithClaims secret now2 (generateJWT secret now uid sid) =
      some (mkClaims uid sid now) := by
    simp [parseWithClaims, generateJWT, hlt]
  rw [← htoks, hstore]
  unfold ValidateToken
  rw [hp]
  have hget : storeGet (storeSet store (sessionKey sid) rt rtLifetime)
      (sessionKey sid) = some rt :=
    storeGet_storeSet_self store (sessionKey sid) rt rtLifetime
  refine ⟨?_, ?_, ?_⟩
  · simp [mkClaims, hget]
  · simp [mkClaims, hget]
  · intro h1 h2
    simp [mkClaims, hget]
    unfold toInt32
    have e1 : (2 : Int) ^ 31 = 2147483648 := by norm_num
    have e2 : (2 : Int) ^ 32 = 4294967296 := by norm_num
    rw [e1, e2]
    rw [e1] at h1 h2
    omega

/-- Witness for C5 (amended): issuing for user 7, well inside int32 range,
and verifying immediately validates with user id exactly 7. -/
theorem c5_issue_then_verify_round_trip_witness :
    (ValidateToken "k" 10 true
        (generateTokens "k" 0 "s1" "rt1" true [] 7).store
        (TokensResponse.mk (generateJWT "k" 0 7 "s1") "rt1").accessToken).isValid
      = true ∧
    (ValidateToken "k" 10 true
        (generateTokens "k" 0 "s1" "rt1" true [] 7).store
        (TokensResponse.mk (generateJWT "k" 0 7 "s1") "rt1").accessToken).userId
      = toInt32 7 ∧
    (-(2 ^ 31) ≤ (7 : Int) → (7 : Int) < 2 ^ 31 →
      (ValidateToken "k" 10 true
        (generateTokens "k" 0 "s1" "rt1" true [] 7).store
        (TokensResponse.mk (generateJWT "k" 0 7 "s1") "rt1").accessToken).userId
      = 7) :=
  c5_issue_then_verify_round_trip "k" 0 10 "s1" "rt1" [] 7
    (TokensResponse.mk (generateJWT "k" 0 7 "s1") "rt1") rfl (by decide)

/-- On a structurally parsed token with a non-empty session id, the renewal
handler never returns the malformed-credential class. -/
theorem RefreshHandler_parsed_not_malformed (secret : String) (now : Nat)
    (getOk setOk : Bool) (fs fr : String) (store : Store)
    (alg : Alg) (claims : Claims) (sig : Sig) (submitted : String)
    (hsid : claims.session_id ≠ "") :
    (RefreshHandler secret now getOk setOk fs fr store
        (Credential.token alg claims sig)
        submitted).result.isMalformedCredential = false := by
  unfold RefreshHandler
  simp only [parseUnverified]
  rw [if_neg hsid]
  split
  · split
    · rfl
    · split
      · rfl
      · split <;> rfl
  · rfl

/-- C6: `renew` reads the access credential with an unverified parse — the
handler's outcome is identical for any two signatures/algorithms over the same
claims, and `parseUnverified` accepts every structurally well-formed token
regardless of signature or expiry. It fails with the `MalformedCredential`
class exactly when the structure cannot be parsed at all or the extracted
session id is empty, and in that case it performs no store operation and
leaves the store untouched. -/
theorem c6_renew_unverified_parse_and_malformed_iff (secret : String)
    (now : Nat) (getOk setOk : Bool) (fs fr : String) (store : Store)
    (cred : Credential) (submitted : String) :
    ((RefreshHandler secret now getOk setOk fs fr store cred
        submitted).result.isMalformedCredential = true ↔
      (parseUnverified cred = none ∨
        ∃ claims, parseUnverified cred = some claims ∧ claims.session_id = "")) ∧
    ((RefreshHandler secret now getOk setOk fs fr store cred
        submitted).result.isMalformedCredential = true →
      (RefreshHandler secret now getOk setOk fs fr store cred submitted).ops = [] ∧
      (RefreshHandler secret now getOk setOk fs fr store cred submitted).store = store) ∧
    (∀ alg claims sig,
      parseUnverified (Credential.token alg claims sig) = some claims) ∧
    (∀ alg1 sig1 alg2 sig2 claims2,
      RefreshHandler secret now getOk setOk fs fr store
          (Credential.token alg1 claims2 sig1) submitted =
        RefreshHandler secret now getOk setOk fs fr store
          (Credential.token alg2 claims2 sig2) submitted) := by
  refine ⟨?_, ?_, fun alg claims sig => rfl, fun alg1 sig1 alg2 sig2 claims2 => rfl⟩
  · cases cred with
    | malformed =>
        simp [RefreshHandler, parseUnverified, RenewResult.isMalformedCredential]
    | token alg claims sig =>
        by_cases hsid : claims.session_id = ""
        · simp [RefreshHandler, parseUnverified, hsid,
            RenewResult.isMalformedCredential]
        · rw [RefreshHandler_parsed_not_malformed secret now getOk setOk fs fr
            store alg claims sig submitted hsid]
          simp [parseUnverified, hsid]
  · intro hmal
    cases cred with
    | malformed => exact ⟨rfl, rfl⟩
    | token alg claims sig =>
        by_cases hsid : claims.session_id = ""
        · constructor
          · unfold RefreshHandler
            simp [parseUnverified, hsid]
          · unfold RefreshHandler
            simp [parseUnverified, hsid]
        · exfalso
          rw [RefreshHandler_parsed_not_malformed secret now getOk setOk fs fr
            store alg claims sig submitted hsid] at hmal
          exact Bool.false_ne_true hmal

/-- Witness for C6: a malformed credential and an empty-session-id credential
are the malformed class with no store access; `sampleToken` with its session
present is not malformed (it renews), and an expired or junk-signed token with
the same claims behaves identically. -/
theorem c6_renew_unverified_parse_witness :
    (RefreshHandler "k" 0 true true "sA" "rA" sampleStore Credential.malformed
        "rt1").result.isMalformedCredential = true ∧
    (RefreshHandler "k" 0 true true "sA" "rA" sampleStore Credential.malformed
        "rt1").ops = [] ∧
    parseUnverified (Credential.token .other sampleClaims (.junk "x")) =
      some sampleClaims ∧
    RefreshHandler "k" 0 true true "sA" "rA" sampleStore sampleToken "rt1" =
      RefreshHandler "k" 0 true true "sA" "rA" sampleStore
        (Credential.token .other sampleClaims (.junk "x")) "rt1" :=
  ⟨((c6_renew_unverified_parse_and_malformed_iff "k" 0 true true "sA" "rA"
      sampleStore Credential.malformed "rt1").1).mpr (Or.inl rfl),
   ((c6_renew_unverified_parse_and_malformed_iff "k" 0 true true "sA" "rA"
      sampleStore Credential.malformed "rt1").2.1 (by decide)).1,
   (c6_renew_unverified_parse_and_malformed_iff "k" 0 true true "sA" "rA"
      sampleStore Credential.malformed "rt1").2.2.1 .other sampleClaims (.junk "x"),
   (c6_renew_unverified_parse_and_malformed_iff "k" 0 true true "sA" "rA"
      sampleStore Credential.malformed "rt1").2.2.2 .HS256 (.mac "k" sampleClaims)
      .other (.junk "x") sampleClaims⟩

/-- `generateTokens` either leaves the store unchanged (failed write) or adds
exactly the fresh session's entry. -/
theorem generateTokens_store_cases (secret : String) (now : Nat)
    (fs fr : String) (setOk : Bool) (store : Store) (uid : Int) :
    (generateTokens secret now fs fr setOk store uid).store = store ∨
    (generateTokens secret now fs fr setOk store uid).store =
      storeSet store (sessionKey fs) fr rtLifetime := by
  cases setOk with
  | false => exact Or.inl rfl
  | true => exact Or.inr rfl

/-- A key absent before a renewal call and different from the fresh session's
key is still absent afterwards, in every branch of the handler. -/
theorem RefreshHandler_preserves_absent (secret : String) (now : Nat)
    (getOk setOk : Bool) (fs fr : String) (store : Store) (cred : Credential)
    (submitted : String) (deadKey : String)
    (habs : storeGet store deadKey = none)
    (hkey : sessionKey fs ≠ deadKey) :
    storeGet (RefreshHandler secret now getOk setOk fs fr store cred
      submitted).store deadKey = none := by
  unfold RefreshHandler
  split
  · exact habs
  · split
    · exact habs
    · split
      · split
        · exact habs
        · split
          · exact storeGet_storeDel_none store _ deadKey habs
          · rcases generateTokens_store_cases secret now fs fr setOk
              (storeDel store _) _ with h | h
            · rw [h]
              exact storeGet_storeDel_none store _ deadKey habs
            · rw [h]
              rw [storeGet_storeSet_other _ (sessionKey fs) fr rtLifetime deadKey
                (fun hc => hkey hc.symm)]
              exact storeGet_storeDel_none store _ deadKey habs
      · exact habs

/-- C10: the Session Store entry records no owner, so a renewed session's
owner comes entirely from the unverified access credential. Two renewal calls
against the same store state, presenting well-formed credentials that carry
the same session id but different user ids, together with the matching stored
renewal credential, both succeed — and each mints the fresh access credential
for its own credential's user id, producing different tokens. -/
theorem c10_renew_owner_from_unverified_claims (secret : String) (now : Nat)
    (fs fr sid rt : String) (store : Store)
    (alg1 alg2 : Alg) (claims1 claims2 : Claims) (sig1 sig2 : Sig)
    (hs1 : claims1.session_id = sid) (hs2 : claims2.session_id = sid)
    (hsid : sid ≠ "")
    (hne : claims1.user_id ≠ claims2.user_id)
    (hget : storeGet store (sessionKey sid) = some rt) :
    (RefreshHandler secret now true true fs fr store
        (Credential.token alg1 claims1 sig1) rt).result =
      .success { accessToken := generateJWT secret now claims1.user_id fs
                 refreshToken := fr } ∧
    (RefreshHandler secret now true true fs fr store
        (Credential.token alg2 claims2 sig2) rt).result =
      .success { accessToken := generateJWT secret now claims2.user_id fs
                 refreshToken := fr } ∧
    generateJWT secret now claims1.user_id fs ≠
      generateJWT secret now claims2.user_id fs := by
  refine ⟨?_, ?_, ?_⟩
  · unfold RefreshHandler
    simp only [parseUnverified]
    rw [hs1]
    simp [hsid, hget, generateTokens]
  · unfold RefreshHandler
    simp only [parseUnverified]
    rw [hs2]
    simp [hsid, hget, generateTokens]
  · intro h
    apply hne
    unfold generateJWT at h
    injection h with halg hclaims hsig
    have h3 := congrArg Claims.user_id hclaims
    simpa [mkClaims] using h3

/-- Witness for C10: the session `s1` entry only stores `"rt1"`; renewal
credentials claiming user 7 and user 8 over session `s1` both rotate it,
yielding token pairs for user 7 and user 8 respectively. -/
theorem c10_renew_owner_from_unverified_claims_witness :
    (RefreshHandler "k" 0 true true "sA" "rA" sampleStore
        (Credential.token .HS256 sampleClaims (.mac "k" sampleClaims))
        "rt1").result =
      .success { accessToken := generateJWT "k" 0 7 "sA", refreshToken := "rA" } ∧
    (RefreshHandler "k" 0 true true "sA" "rA" sampleStore
        (Credential.token .other
          { user_id := 8, session_id := "s1", issued_at := 0,
            expires_at := 900, subject := "access_token" } (.junk "forged"))
        "rt1").result =
      .success { accessToken := generateJWT "k" 0 8 "sA", refreshToken := "rA" } ∧
    generateJWT "k" 0 7 "sA" ≠ generateJWT "k" 0 8 "sA" :=
  c10_renew_owner_from_unverified_claims "k" 0 "sA" "rA" "s1" "rt1" sampleStore
    .HS256 .other sampleClaims
    { user_id := 8, session_id := "s1", issued_at := 0,
      expires_at := 900, subject := "access_token" }
    (.mac "k" sampleClaims) (.junk "forged")
    (by decide) (by decide) (by decide) (by decide) (by decide)

/-- C3: one-time use and no resurrection. With the stored renewal credential
matching the submitted one, `renew` succeeds; replaying the same old access
credential and old renewal credential against the resulting store fails with
`SessionInactive` (the fresh session id differs from the old one); moreover a
session key absent from the store stays absent across any further renewal
whose fresh session id differs from it, and across any verification — only
the issue step inside a successful renewal creates an entry, under the fresh
session id's key. -/
theorem c3_renewal_one_time_use_and_terminated_absorbing (secret : String)
    (now now2 : Nat) (setOk2 : Bool) (fs fr fs2 fr2 : String) (store : Store)
    (cred : Credential) (claims : Claims) (rt : String)
    (hparse : parseUnverified cred = some claims)
    (hsid : claims.session_id ≠ "")
    (hfresh : fs ≠ claims.session_id)
    (hget : storeGet store (sessionKey claims.session_id) = some rt) :
    (RefreshHandler secret now true true fs fr store cred rt).result =
      .success { accessToken := generateJWT secret now claims.user_id fs
                 refreshToken := fr } ∧
    storeGet (RefreshHandler secret now true true fs fr store cred rt).store
      (sessionKey fs) = some fr ∧
    (RefreshHandler secret now2 true setOk2 fs2 fr2
        (RefreshHandler secret now true true fs fr store cred rt).store
        cred rt).result = .sessionInactive ∧
    (∀ (getOk3 setOk3 : Bool) (fs3 fr3 : String) (cred3 : Credential)
        (rt3 : String) (s : Store) (deadSid : String),
      storeGet s (sessionKey deadSid) = none →
      fs3 ≠ deadSid →
      storeGet (RefreshHandler secret now2 getOk3 setOk3 fs3 fr3 s cred3
        rt3).store (sessionKey deadSid) = none) ∧
    (∀ (getOk3 : Bool) (s : Store) (cred3 : Credential),
      (ValidateToken secret now2 getOk3 s cred3).store = s) := by
  have hkeyne : sessionKey fs ≠ sessionKey claims.session_id :=
    fun hc => hfresh (sessionKey_inj hc)
  have hstore : (RefreshHandler secret now true true fs fr store cred rt).store =
      storeSet (storeDel store (sessionKey claims.session_id)) (sessionKey fs)
        fr rtLifetime := by
    unfold RefreshHandler
    rw [hparse]
    simp [hsid, hget, generateTokens]
  refine ⟨?_, ?_, ?_, ?_, ?_⟩
  · unfold RefreshHandler
    rw [hparse]
    simp [hsid, hget, generateTokens]
  · rw [hstore]
    exact storeGet_storeSet_self _ (sessionKey fs) fr rtLifetime
  · have holdkey : storeGet
        (RefreshHandler secret now true true fs fr store cred rt).store
        (sessionKey claims.session_id) = none := by
      rw [hstore]
      rw [storeGet_storeSet_other _ (sessionKey fs) fr rtLifetime _
        (fun hc => hkeyne hc.symm)]
      exact storeGet_storeDel_self store (sessionKey claims.session_id)
    generalize hS : (RefreshHandler secret now true true fs fr store cred rt).store
      = S at holdkey ⊢
    unfold RefreshHandler
    rw [hparse]
    simp [hsid, holdkey]
  · intro getOk3 setOk3 fs3 fr3 cred3 rt3 s deadSid habs hfresh3
    exact RefreshHandler_preserves_absent secret now2 getOk3 setOk3 fs3 fr3 s
      cred3 rt3 (sessionKey deadSid) habs
      (fun hc => hfresh3 (sessionKey_inj hc))
  · intro getOk3 s cred3
    exact ValidateToken_store_invariant secret now2 getOk3 s cred3

/-- Witness for C3: renewing session `s1` with the correct `"rt1"` succeeds
and installs fresh session `sA`; replaying the old pair is rejected as
inactive; a dead session `sZ` stays dead across a renewal and a verify. -/
theorem c3_renewal_one_time_use_witness :
    (RefreshHandler "k" 0 true true "sA" "rA" sampleStore sampleToken
        "rt1").result =
      .success { accessToken := generateJWT "k" 0 7 "sA", refreshToken := "rA" } ∧
    storeGet (RefreshHandler "k" 0 true true "sA" "rA" sampleStore sampleToken
        "rt1").store (sessionKey "sA") = some "rA" ∧
    (RefreshHandler "k" 5 true true "sB" "rB"
        (RefreshHandler "k" 0 true true "sA" "rA" sampleStore sampleToken
          "rt1").store sampleToken "rt1").result = .sessionInactive ∧
    storeGet (RefreshHandler "k" 5 true true "sB" "rB" sampleStore sampleToken
        "rt1").store (sessionKey "sZ") = none ∧
    (ValidateToken "k" 5 true sampleStore sampleToken).store = sampleStore := by
  have h := c3_renewal_one_time_use_and_terminated_absorbing "k" 0 5 true
    "sA" "rA" "sB" "rB" sampleStore sampleToken sampleClaims "rt1"
    (by decide) (by decide) (by decide) (by decide)
  exact ⟨h.1, h.2.1, h.2.2.1,
    h.2.2.2.1 true true "sB" "rB" sampleToken "rt1" sampleStore "sZ"
      (by decide) (by decide),
    h.2.2.2.2 true sampleStore sampleToken⟩

/-- The continuation of `RefreshHandler` after its Redis `GET` has returned
`getResult`: the comparison, the `DEL`, and the re-issue, run against the
store state current at that later moment. The source performs the `GET`
(`RedisClient.Get`) and the `DEL`/re-issue (`RedisClient.Del`,
`RedisClient.Set`) as separate store calls with no transaction around them,
so under concurrent serving another request's operations may land between the
`GET` and the rest; this function makes that interleaving point explicit. -/
def renewAfterGet (secret : String) (now : Nat) (setOk : Bool)
    (freshSessionID freshRefreshToken : String) (key : String) (userID : Int)
    (getResult : Option String) (submittedRT : String) (store : Store) :
    RenewOut :=
  match getResult with
  | none => { result := .sessionInactive, store := store, ops := [.get key] }
  | some storedRT =>
      if storedRT ≠ submittedRT then
        { result := .renewalMismatch
          store := storeDel store key
          ops := [.get key, .del key] }
      else
        { result :=
            match (generateTokens secret now freshSessionID freshRefreshToken
                setOk (storeDel store key) userID).result with
            | .ok toks => .success toks
            | .storeUnavailable => .issueFailed
          store := (generateTokens secret now freshSessionID freshRefreshToken
            setOk (storeDel store key) userID).store
          ops := [.get key, .del key] ++
            (generateTokens secret now freshSessionID freshRefreshToken setOk
              (storeDel store key) userID).ops }

/-- Run back-to-back (no interleaving), the `GET` followed by its
continuation is exactly the renewal handler. -/
theorem RefreshHandler_eq_get_then_continuation (secret : String) (now : Nat)
    (setOk : Bool) (fs fr : String) (store : Store) (cred : Credential)
    (submitted : String) (claims : Claims)
    (hparse : parseUnverified cred = some claims)
    (hsid : claims.session_id ≠ "") :
    RefreshHandler secret now true setOk fs fr store cred submitted =
      renewAfterGet secret now setOk fs fr (sessionKey claims.session_id)
        claims.user_id (storeGet store (sessionKey claims.session_id))
        submitted store := by
  unfold RefreshHandler renewAfterGet
  rw [hparse]
  simp [hsid]

/-- C8: of two concurrent renewals presenting the same valid
(access credential, renewal credential) pair, the claim requires exactly one
to succeed. The code's read-and-delete is two separate store calls, so in the
interleaving where both requests perform their `GET` on the initial store
(session `s1` holding `rt1`) before either deletes, both continuations
succeed: request A mints session `sA` and request B, comparing against the
value its `GET` returned earlier, also passes the check, deletes an
already-deleted key, and mints session `sB` — a double-spend of one renewal
credential. A lone renewal equals the `GET`-then-continuation composition, so
the decomposition is the handler itself. -/
theorem c8_interleaved_renewals_both_succeed :
    RefreshHandler "k" 0 true true "sA" "rA" sampleStore sampleToken "rt1" =
      renewAfterGet "k" 0 true "sA" "rA" (sessionKey "s1") 7
        (storeGet sampleStore (sessionKey "s1")) "rt1" sampleStore ∧
    (renewAfterGet "k" 0 true "sA" "rA" (sessionKey "s1") 7
        (storeGet sampleStore (sessionKey "s1")) "rt1"
        sampleStore).result.isSuccess = true ∧
    (renewAfterGet "k" 0 true "sB" "rB" (sessionKey "s1") 7
        (storeGet sampleStore (sessionKey "s1")) "rt1"
        (renewAfterGet "k" 0 true "sA" "rA" (sessionKey "s1") 7
          (storeGet sampleStore (sessionKey "s1")) "rt1"
          sampleStore).store).result.isSuccess = true := by
  refine ⟨?_, by decide, by decide⟩
  exact RefreshHandler_eq_get_then_continuation "k" 0 true "sA" "rA"
    sampleStore sampleToken "rt1" sampleClaims (by decide) (by decide)

end HydraAuth
